import Mathlib

/-!
Verification development for `report_utils.py` (MAO_Reporting).

The module has three procedures:
  * `get_api_auth_token` — cached bearer-token acquisition via an Airflow
    Variable store (lines 18-68 of the source);
  * `query_order_api` — paginated POST search accumulating all pages
    (lines 70-212);
  * `generate_pdf_report` — rendering of the accumulated records into a
    PDF document (lines 214-432).

The shallow embedding below translates each procedure into a Lean
function.  External collaborators are modelled explicitly:
  * the Airflow Variable store is a record of the five keys the module
    touches (`VarStore`);
  * `datetime` instants are integers (seconds); `isoformat` /
    `fromisoformat` are decimal (de)serialisation, with parse failure
    (`ValueError`) modelled as `none`;
  * HTTP calls are functions supplied by the environment (the search
    server is a function from page index to response);
  * the pandas `DataFrame` built at line 255 is modelled by explicit
    column / dtype / cell functions, documented at their definitions;
  * reportlab elements are modelled by the `Element` inductive: the
    document is the ordered list of flowables appended to `elements`.

Python exceptions are modelled with `Except`; a raising code path
returns `Except.error`.
-/

namespace ReportUtils

/-! ### Record values

An `OrderRecord` is a JSON object: a mapping from field name to a
heterogeneous value.  The source only ever distinguishes `int`, `float`
and everything-else (via `isinstance(value, (int, float))` /
`isinstance(value, float)`), so values are integers, floats (modelled as
rationals — exact for every decimal the claims touch) or strings. -/

inductive Value where
  | i : Int → Value
  | f : Rat → Value
  | s : String → Value
deriving DecidableEq, Repr

/-- A record (Python `dict`): association list, first binding wins
(Python dicts have unique keys; on duplicate keys this model
consistently uses the first). -/
abbrev Record := List (String × Value)

/-- `dict[k]` / `dict.get(k)`: first binding for `k`. -/
def dictLookup (r : Record) (k : String) : Option Value :=
  (r.find? (fun p => p.1 == k)).map Prod.snd

/-- `list(d.keys())`: keys in insertion order (deduplicated). -/
def dictKeys (r : Record) : List String :=
  (r.map Prod.fst).eraseDups

/-! ### Python number formatting

`f"{v:,}"`, `f"{v:,.2f}"` and `str(v)` as used at source lines 293-307
and 390-396. -/

/-- Insert `,` after every third character of a reversed digit list
(helper for thousands grouping). -/
def groupRev : List Char → List Char
  | c1 :: c2 :: c3 :: c4 :: rest => c1 :: c2 :: c3 :: ',' :: groupRev (c4 :: rest)
  | l => l

/-- Python `f"{n:,}"` for a natural number: decimal digits grouped in
threes by commas. -/
def fmtNatComma (n : Nat) : String :=
  String.mk (groupRev (toString n).data.reverse).reverse

/-- Python `f"{v:,}"` for an `int`. -/
def fmtIntComma (v : Int) : String :=
  (if v < 0 then "-" else "") ++ fmtNatComma v.natAbs

/-- Left-pad the decimal form of `n` with zeros to width `w`. -/
def zeroPad (w : Nat) (n : Nat) : String :=
  let t := toString n
  String.mk (List.replicate (w - t.length) '0') ++ t

/-- Round-half-to-even to an integer (the rounding Python's `format`
applies to the decimal rendering of a float). -/
def roundHalfEven (q : Rat) : Int :=
  let fl := q.floor
  let frac := q - (fl : Rat)
  if frac < 1 / 2 then fl
  else if 1 / 2 < frac then fl + 1
  else if fl % 2 = 0 then fl else fl + 1

/-- Python `f"{v:,.2f}"` for a float: thousands-grouped integer part,
exactly two fractional digits. -/
def fmtFloat2 (q : Rat) : String :=
  let m := roundHalfEven (q * 100)
  let a := m.natAbs
  (if m < 0 then "-" else "") ++ fmtNatComma (a / 100) ++ "." ++ zeroPad 2 (a % 100)

/-- Fractional digits of a rational in `[0, 1)`, fuelled; empty once the
remainder is zero (helper for `pyFloatStr`). -/
def fracStr : Nat → Rat → String
  | 0, _ => ""
  | fuel + 1, q =>
    if q = 0 then ""
    else
      let q10 := q * 10
      let d := q10.floor
      toString d ++ fracStr fuel (q10 - (d : Rat))

/-- Python `str(v)` for a float: shortest decimal form, at least one
fractional digit (`str(60.0) = "60.0"`).  Exact for every
decimal-representable float, which covers all data the source's test
values and the claims exercise. -/
def pyFloatStr (q : Rat) : String :=
  let sign := if q < 0 then "-" else ""
  let a := if q < 0 then -q else q
  let ip := a.floor
  let frac := a - (ip : Rat)
  sign ++ toString ip ++ "." ++ (if frac = 0 then "0" else fracStr 60 frac)

/-! ### Dates

`datetime.strftime` with the two format strings the source uses
(`'%Y%m%d'` at line 232 and `'%Y-%m-%d'` at lines 241/264). -/

structure Date where
  year : Nat
  month : Nat
  day : Nat
deriving DecidableEq, Repr

/-- `d.strftime('%Y%m%d')`. -/
def fmtYYYYMMDD (d : Date) : String :=
  zeroPad 4 d.year ++ zeroPad 2 d.month ++ zeroPad 2 d.day

/-- `d.strftime('%Y-%m-%d')`. -/
def fmtDashed (d : Date) : String :=
  zeroPad 4 d.year ++ "-" ++ zeroPad 2 d.month ++ "-" ++ zeroPad 2 d.day

/-! ### Token acquisition (`get_api_auth_token`, source lines 18-68)

The Airflow `Variable` store is modelled as the record of the five keys
the module reads or writes.  Instants (`datetime.now()`) are integers;
`isoformat`/`fromisoformat` are decimal serialisation, with
`fromisoformat` returning `none` on strings that raise `ValueError`. -/

structure VarStore where
  api_token : Option String
  api_token_expiry : Option String
  order_api_base_url : Option String
  api_client_id : Option String
  api_client_secret : Option String
deriving DecidableEq, Repr

/-- Python truthiness of `Variable.get(k, default_var=None)`: the key is
present and its string value is non-empty (source line 27 tests
`if token and token_expiry`). -/
def strTruthy : Option String → Bool
  | none => false
  | some s => !(s == "")

/-- Model of `datetime.isoformat`: decimal rendering of the instant. -/
def toIso (t : Int) : String := toString t

/-- Decimal digit value of a character, `none` for non-digits. -/
def decDigit? (c : Char) : Option Nat :=
  if c.isDigit then some (c.toNat - 48) else none

/-- Parse a non-empty all-digit character list as a natural number. -/
def parseNatDigits (l : List Char) : Option Nat :=
  if l.isEmpty then none
  else
    l.foldl
      (fun acc c =>
        match acc, decDigit? c with
        | some n, some d => some (n * 10 + d)
        | _, _ => none)
      (some 0)

/-- Model of `datetime.fromisoformat`: decimal parsing of an integer
instant (an optional sign followed by digits); `none` models the
`ValueError` raised on a malformed timestamp string. -/
def fromIso (s : String) : Option Int :=
  match s.data with
  | '-' :: rest => (parseNatDigits rest).map (fun n => -(n : Int))
  | l => (parseNatDigits l).map (fun n => (n : Int))

/-- Response of `POST {base}/auth/token` (source line 46).  `expires_in`
is optional: line 53 defaults it to 3600. -/
structure AuthResponse where
  status : Nat
  access_token : Option String
  expires_in : Option Int
deriving DecidableEq, Repr

/-- Outcome of the single HTTP POST the refresh path performs:
`Except.error` models a transport exception raised by `requests.post`. -/
abbrev AuthNet := Except String AuthResponse

/-- The exceptions `get_api_auth_token` can propagate. -/
inductive AuthError where
  /-- `ValueError` from `datetime.fromisoformat` at line 29. -/
  | parseError
  /-- `KeyError` from `Variable.get` without a default (lines 36/41/42). -/
  | variableMissing : String → AuthError
  /-- `KeyError` from `auth_data["access_token"]` at line 50. -/
  | keyError
  /-- `Exception("Authentication failed")` raised at line 64 on a
  non-200 status. -/
  | authFailed
  /-- transport exception from `requests.post`, re-raised at line 68. -/
  | transport : String → AuthError
deriving DecidableEq, Repr

/-- Result of a call to `get_api_auth_token`: the returned token (or
propagated exception), the Variable store afterwards, and how many
times the auth endpoint was called. -/
structure AuthOutcome where
  result : Except AuthError String
  store : VarStore
  calls : Nat
deriving Repr

/-- Refresh path of `get_api_auth_token` (source lines 34-68): read the
endpoint configuration, POST the client credentials once, and on a 200
response persist the new token with `expiry = now + expires_in`
(default 3600), overwriting the cached credential. -/
def refreshToken (store : VarStore) (now : Int) (net : AuthNet) : AuthOutcome :=
  match store.order_api_base_url with
  | none => ⟨Except.error (AuthError.variableMissing "order_api_base_url"), store, 0⟩
  | some _ =>
    match store.api_client_id with
    | none => ⟨Except.error (AuthError.variableMissing "api_client_id"), store, 0⟩
    | some _ =>
      match store.api_client_secret with
      | none => ⟨Except.error (AuthError.variableMissing "api_client_secret"), store, 0⟩
      | some _ =>
        match net with
        | Except.error msg => ⟨Except.error (AuthError.transport msg), store, 1⟩
        | Except.ok resp =>
          if resp.status = 200 then
            match resp.access_token with
            | none => ⟨Except.error AuthError.keyError, store, 1⟩
            | some tok =>
              let expires_in := resp.expires_in.getD 3600
              let expiry_time := now + expires_in
              ⟨Except.ok tok,
               ⟨some tok, some (toIso expiry_time), store.order_api_base_url,
                store.api_client_id, store.api_client_secret⟩, 1⟩
          else ⟨Except.error AuthError.authFailed, store, 1⟩

/-- `get_api_auth_token` (source lines 18-68).  If both cached Variables
are truthy, the expiry is parsed (line 29, outside the `try` block: a
parse failure propagates) and, when `now < expiry_time`, the cached
token is returned with no network call and no store mutation.
Otherwise the refresh path runs. -/
def get_api_auth_token (store : VarStore) (now : Int) (net : AuthNet) : AuthOutcome :=
  if strTruthy store.api_token && strTruthy store.api_token_expiry then
    match fromIso (store.api_token_expiry.getD "") with
    | none => ⟨Except.error AuthError.parseError, store, 0⟩
    | some expiry_time =>
      if now < expiry_time then ⟨Except.ok (store.api_token.getD ""), store, 0⟩
      else refreshToken store now net
  else refreshToken store now net

/-! ### Report configuration

`report_config` is a JSON object; each field the source reads is
optional (`.get`, or guarded by `"k" in report_config`).  `none` for
the whole configuration covers both `None` and the (behaviourally
identical) empty dict: every access in the source is key-based, so a
truthy dict carrying none of these keys behaves like `None`. -/

structure QueryParameters where
  view_name : Option String
  sort_field : Option String
  order_type : Option String
deriving DecidableEq, Repr

structure SummaryField where
  field : String
  operation : String
  label : String
deriving DecidableEq, Repr

structure ReportConfig where
  report_id : Option String
  description : Option String
  report_fields : Option (List String)
  query_parameters : Option QueryParameters
  summary_fields : Option (List SummaryField)
deriving DecidableEq, Repr

/-- `report_config.get("query_parameters", {})` (lines 143/149/154):
missing map behaves as empty. -/
def queryParams (cfg : Option ReportConfig) : Option QueryParameters :=
  cfg.bind ReportConfig.query_parameters

/-! ### Paginated search (`query_order_api`, source lines 70-212) -/

/-- The search payload fields the configuration can observe or change
(source lines 89-165).  The date filter, time window, time zone,
max-count cap and page size come from the fixed base template; `page`
is rewritten each iteration (line 178). -/
structure SearchPayload where
  viewName : String
  filterViewName : String
  fromDate : String
  toDate : String
  requestAttributeIds : List String
  sortOrder : String
  timeZone : String
  maxCountLimit : Nat
  size : Nat
  sort : String
  orderTypeFilter : Option String
  page : Nat
deriving DecidableEq, Repr

/-- Build the search payload from the fixed base template plus the
configuration overrides (source lines 89-165): requested field list,
view name (applied to the payload and its first filter), sort field,
and an optional appended text-search filter on `order_type`.  Note the
page size (`"Size": 100`) is part of the base template and never
overridden. -/
def buildSearchPayload (from_date to_date : String) (cfg : Option ReportConfig) :
    SearchPayload :=
  let base : SearchPayload :=
    ⟨"orderdetails", "orderdetails", from_date, to_date, [], "desc",
     "America/Chicago", 1000, 100, "OrderDate", none, 0⟩
  match cfg with
  | none => base
  | some c =>
    let p1 := match c.report_fields with
      | some fs => { base with requestAttributeIds := fs }
      | none => base
    let p2 := match (queryParams cfg).bind QueryParameters.view_name with
      | some v => if v ≠ "" then { p1 with viewName := v, filterViewName := v } else p1
      | none => p1
    let p3 := match (queryParams cfg).bind QueryParameters.sort_field with
      | some v => if v ≠ "" then { p2 with sort := v } else p2
      | none => p2
    match (queryParams cfg).bind QueryParameters.order_type with
    | some v => if v ≠ "" then { p3 with orderTypeFilter := some v } else p3
    | none => p3

/-- One response of `POST {base}/order/search` for some page index.
`data` is the optional record list (`result_data.get("data")`),
`totalCount` the optional server-reported total
(`result_data.get("totalCount", 0)`). -/
structure PageResponse (α : Type) where
  status : Nat
  data : Option (List α)
  totalCount : Option Nat

/-- The pagination loop of `query_order_api` (source lines 176-205),
fuelled (`none` = the loop has not terminated within `fuel`
iterations, which is possible in the source for a server that keeps
returning full pages below `totalCount`).  `server` maps a page index
to the response of the POST for that page; `fetched` accumulates the
page indices requested so far.  Per iteration: a non-200 status raises
(line 189); an absent or empty `data` ends the loop (line 194) without
contributing records; otherwise the records are appended and the loop
ends when `len(all_results) >= result_data.get("totalCount", 0)` or
the page was shorter than `payload["Size"]` (line 202), else the page
index is incremented. -/
def queryLoop {α : Type} (server : Nat → PageResponse α) (size : Nat) :
    Nat → Nat → List α → List Nat → Option (Except String (List α × List Nat))
  | 0, _, _, _ => none
  | fuel + 1, page, acc, fetched =>
    let resp := server page
    let fetched2 := fetched ++ [page]
    if resp.status ≠ 200 then some (Except.error "API returned error")
    else
      let d := resp.data.getD []
      if d.isEmpty then some (Except.ok (acc, fetched2))
      else
        let acc2 := acc ++ d
        if resp.totalCount.getD 0 ≤ acc2.length ∨ d.length < size then
          some (Except.ok (acc2, fetched2))
        else queryLoop server size fuel (page + 1) acc2 fetched2

/-- `query_order_api` (source lines 70-212): build the payload and run
the pagination loop from page 0 with an empty accumulator.  The result
also reports the list of page indices that were requested. -/
def query_order_api {α : Type} (server : Nat → PageResponse α) (fuel : Nat)
    (from_date to_date : String) (cfg : Option ReportConfig) :
    Option (Except String (List α × List Nat)) :=
  let payload := buildSearchPayload from_date to_date cfg
  queryLoop server payload.size fuel 0 [] []

/-- Records of page `n` (`result_data.get("data")`, absent ↦ `[]`). -/
def pageData {α : Type} (server : Nat → PageResponse α) (n : Nat) : List α :=
  (server n).data.getD []

/-- All records accumulated after fetching pages `0 .. n-1`. -/
def accUpto {α : Type} (server : Nat → PageResponse α) (n : Nat) : List α :=
  ((List.range n).map (pageData server)).flatten

/-- The loop's termination test at page `n` (source lines 194 and 202):
the page's record list is absent or empty, or the count accumulated
through page `n` has reached the page's reported `totalCount`
(defaulted to 0), or the page holds fewer than the requested page size
of 100 records. -/
def stopsAt {α : Type} (server : Nat → PageResponse α) (n : Nat) : Bool :=
  (pageData server n).isEmpty
    || decide ((server n).totalCount.getD 0 ≤ (accUpto server (n + 1)).length)
    || decide ((pageData server n).length < 100)

/-! ### The pandas `DataFrame` (source line 255)

`pd.DataFrame(results)` over a list of dicts.  The behaviours the
renderer observes:

  * `df.columns` is the union of the records' keys, in first-appearance
    order;
  * a record lacking a column's key yields `NaN` in that cell, and `NaN`
    is a float (so `isinstance(value, float)` holds and
    `f"{value:,.2f}"` prints `"nan"`);
  * each column gets a dtype: all-`int` with no missing key → `int64`
    (cells are `numpy.int64`, which is **not** a subclass of Python
    `int`); numeric with a float or a missing key → `float64` (cells
    are `numpy.float64`, which **is** a subclass of `float`; ints are
    promoted); any string present → `object` (cells keep their Python
    types);
  * `df.iterrows()` (line 386) rebuilds each row as a Series of the
    common dtype of all columns: if every column is `int64` the row
    values are `numpy.int64`; if any column is `float64` (and none is
    `object`) numeric values become `numpy.float64`; if any column is
    `object` the interleaved array boxes numbers back to native Python
    `int` / `float`.
-/

/-- `df.columns`: union of the records' keys in first-appearance
order. -/
def dfColumns (results : List Record) : List String :=
  ((results.map dictKeys).flatten).eraseDups

def Value.isStr : Value → Bool
  | Value.s _ => true
  | _ => false

def Value.isInt : Value → Bool
  | Value.i _ => true
  | _ => false

/-- The values present in column `c` (records that have the key), in
row order. -/
def colPresent (results : List Record) (c : String) : List Value :=
  results.filterMap (fun r => dictLookup r c)

/-- Does any record lack the key `c`? -/
def colHasMissing (results : List Record) (c : String) : Bool :=
  results.any (fun r => (dictLookup r c).isNone)

/-- pandas column dtypes the renderer can observe. -/
inductive Dtype where
  | int64
  | float64
  | obj
deriving DecidableEq, Repr

/-- dtype inferred by `pd.DataFrame` for column `c` (see the DataFrame
note above). -/
def colDtype (results : List Record) (c : String) : Dtype :=
  let vs := colPresent results c
  if vs.any Value.isStr then Dtype.obj
  else if vs.all Value.isInt && !colHasMissing results c then Dtype.int64
  else Dtype.float64

/-- Common dtype of all columns: the dtype of the Series `iterrows`
yields for each row. -/
def dfRowDtype (results : List Record) : Dtype :=
  let ds := (dfColumns results).map (colDtype results)
  if ds.any (· == Dtype.obj) then Dtype.obj
  else if ds.any (· == Dtype.float64) then Dtype.float64
  else Dtype.int64

/-- A Python value as the renderer's `isinstance` tests see it:
`numpy.int64` (not an `int`), native `int`, a float (`numpy.float64`
subclasses `float`, so the two need not be distinguished), `NaN`
(a float), or a string. -/
inductive PyVal where
  | npint : Int → PyVal
  | pint : Int → PyVal
  | pfloat : Rat → PyVal
  | pstr : String → PyVal
  | nan
deriving DecidableEq, Repr

/-- The value stored at row `r`, column `c` of the DataFrame (dtype
promotion applied per column). -/
def cellVal (results : List Record) (r : Record) (c : String) : PyVal :=
  match dictLookup r c, colDtype results c with
  | none, _ => PyVal.nan
  | some (Value.i n), Dtype.float64 => PyVal.pfloat (n : Rat)
  | some (Value.i n), Dtype.int64 => PyVal.npint n
  | some (Value.i n), Dtype.obj => PyVal.pint n
  | some (Value.f q), _ => PyVal.pfloat q
  | some (Value.s t), _ => PyVal.pstr t

/-- The value `row.get(field, "")` yields inside the `iterrows` loop
(source line 389): the row Series has the common dtype of all columns,
so promotion is driven by `dfRowDtype` (in an `object` row, numbers
are boxed back to native Python values). -/
def iterVal (results : List Record) (r : Record) (c : String) : PyVal :=
  match dictLookup r c, dfRowDtype results with
  | none, _ => PyVal.nan
  | some (Value.i n), Dtype.float64 => PyVal.pfloat (n : Rat)
  | some (Value.i n), Dtype.int64 => PyVal.npint n
  | some (Value.i n), Dtype.obj => PyVal.pint n
  | some (Value.f q), _ => PyVal.pfloat q
  | some (Value.s t), _ => PyVal.pstr t

/-- Cell formatting of the Detailed Data table (source lines 390-396):
`isinstance(value, (int, float))` admits native ints, floats and `NaN`
(but not `numpy.int64`); floats print as `f"{value:,.2f}"` (so `NaN`
prints `"nan"`), native ints as `f"{value:,}"`, everything else as
`str(value)`. -/
def formatCell : PyVal → String
  | PyVal.pint n => fmtIntComma n
  | PyVal.pfloat q => fmtFloat2 q
  | PyVal.nan => "nan"
  | PyVal.npint n => toString n
  | PyVal.pstr t => t

/-! ### Summary aggregates (source lines 288-315)

`df[field].sum() / .mean() / .min() / .max()` on a column.  pandas
skips `NaN` (`skipna=True` is the default), so the aggregates run over
the *present* values.  On `int64` columns they return `numpy.int64`
(which fails `isinstance(value, (int, float))`), on `float64` columns
`numpy.float64` (a `float`); on `object` columns mixing strings with
numbers they raise `TypeError`, which line 317 catches (field
skipped). -/

def colInts (results : List Record) (c : String) : List Int :=
  (colPresent results c).filterMap (fun v =>
    match v with
    | Value.i n => some n
    | _ => none)

def valRat : Value → Rat
  | Value.i n => (n : Rat)
  | Value.f q => q
  | Value.s _ => 0

/-- Numeric view of a column's present values (only used at numeric
dtypes, where no string occurs). -/
def colRats (results : List Record) (c : String) : List Rat :=
  (colPresent results c).map valRat

def colStrs (results : List Record) (c : String) : List String :=
  (colPresent results c).filterMap (fun v =>
    match v with
    | Value.s t => some t
    | _ => none)

def colSumInt (results : List Record) (c : String) : Int :=
  (colInts results c).foldl (· + ·) 0

def colSumRat (results : List Record) (c : String) : Rat :=
  (colRats results c).foldl (· + ·) 0

/-- `df[field].mean()`: sum of present values over their count. -/
def colMeanRat (results : List Record) (c : String) : Option Rat :=
  let vs := colRats results c
  if vs.isEmpty then none else some (colSumRat results c / (vs.length : Rat))

def colMinInt (results : List Record) (c : String) : Option Int :=
  (colInts results c).min?

def colMaxInt (results : List Record) (c : String) : Option Int :=
  (colInts results c).max?

def colMinRat (results : List Record) (c : String) : Option Rat :=
  (colRats results c).min?

def colMaxRat (results : List Record) (c : String) : Option Rat :=
  (colRats results c).max?

def colMinStr (results : List Record) (c : String) : Option String :=
  (colStrs results c).min?

def colMaxStr (results : List Record) (c : String) : Option String :=
  (colStrs results c).max?

/-- The rendered value string of one summary field (source lines
288-315), `none` when the field produces no summary row: the `group`
operation (chart instead, line 310), an unknown operation (warning,
line 312), or a per-field computation error (`TypeError` on an
`object` column aggregate, caught at line 317).

Formatting per the `isinstance` tests of lines 292-307:
  * `sum` on `int64` → `numpy.int64`, not an `int`: `str(value)`;
    on `float64` → `numpy.float64`: `f"{value:,.2f}"`; on an
    all-string `object` column pandas concatenates: `str(value)`;
  * `avg`/`mean` → `numpy.float64`: `f"{value:,.2f}"` (line 298);
  * `count` = `len(df)`, a native `int`: `f"{value:,}"` (line 301);
  * `min`/`max` → `str(value)` (lines 304/307), with no separator
    formatting. -/
def summaryValueStr (results : List Record) (field operation : String) : Option String :=
  match operation with
  | "sum" =>
    match colDtype results field with
    | Dtype.int64 => some (toString (colSumInt results field))
    | Dtype.float64 => some (fmtFloat2 (colSumRat results field))
    | Dtype.obj =>
      if (colPresent results field).all Value.isStr then
        some (String.join (colStrs results field))
      else none
  | "avg" | "mean" =>
    match colDtype results field with
    | Dtype.obj => none
    | _ => (colMeanRat results field).map fmtFloat2
  | "count" => some (fmtNatComma results.length)
  | "min" =>
    match colDtype results field with
    | Dtype.int64 => (colMinInt results field).map toString
    | Dtype.float64 => (colMinRat results field).map pyFloatStr
    | Dtype.obj =>
      if (colPresent results field).all Value.isStr then colMinStr results field
      else none
  | "max" =>
    match colDtype results field with
    | Dtype.int64 => (colMaxInt results field).map toString
    | Dtype.float64 => (colMaxRat results field).map pyFloatStr
    | Dtype.obj =>
      if (colPresent results field).all Value.isStr then colMaxStr results field
      else none
  | "group" => none
  | _ => none

/-- The summary table rows (source lines 277-319): one `[label, value]`
row per summary field whose `field` is a column of the data (line 285)
and whose computation produced a value. -/
def summaryRows (results : List Record) (sfs : List SummaryField) : List (List String) :=
  sfs.filterMap (fun sf =>
    if (dfColumns results).contains sf.field then
      (summaryValueStr results sf.field sf.operation).map (fun v => [sf.label, v])
    else none)

/-- `df[field].value_counts().head(10)` (source line 347): frequency of
each distinct non-`NaN` cell value, sorted by descending count (ties
in first-appearance order), top 10. -/
def valueCounts (results : List Record) (c : String) : List (PyVal × Nat) :=
  let cells := (results.map (fun r => cellVal results r c)).filter
    (fun v => !(v == PyVal.nan))
  let distinct := cells.eraseDups
  let sorted := distinct.mergeSort (fun a b => cells.count b ≤ cells.count a)
  (sorted.take 10).map (fun v => (v, cells.count v))

/-! ### The rendered document (`generate_pdf_report`, source lines
214-432)

The document is modelled as the ordered list of reportlab flowables
appended to `elements`; chart images are represented by the data they
plot.  `Except.error` models an uncaught exception escaping the
function. -/

inductive Element where
  /-- `Paragraph(..., styles['Title'])` (lines 241/264). -/
  | title : String → Element
  /-- `Spacer(1, h)`. -/
  | spacer : Nat → Element
  /-- `Paragraph(..., styles['Normal'])` (lines 243/269). -/
  | para : String → Element
  /-- `Paragraph(..., styles['Heading2'])` (lines 274/376). -/
  | heading2 : String → Element
  /-- `Paragraph(..., styles['Heading3'])` (line 363). -/
  | heading3 : String → Element
  /-- the two-column label/value summary table (line 323). -/
  | summaryTable : List (List String) → Element
  /-- the bar-chart `Image` for a `group` field (line 365): field,
  label, and the plotted value counts. -/
  | chart : String → String → List (PyVal × Nat) → Element
  /-- the Detailed Data table (line 402): `table_data` (header row
  first) and the uniform column width
  `max(100, min(200, 600 // len(table_fields)))` (line 401). -/
  | dataTable : List (List String) → Nat → Element
deriving DecidableEq, Repr

/-- `report_config.get("report_id", "report") if report_config else
"report"` (source line 231). -/
def reportIdOf (cfg : Option ReportConfig) : String :=
  (cfg.bind ReportConfig.report_id).getD "report"

/-- The output path `f"/tmp/{report_id}_{execution_date.strftime('%Y%m%d')}.pdf"`
(source line 232). -/
def pdfPath (cfg : Option ReportConfig) (d : Date) : String :=
  "/tmp/" ++ reportIdOf cfg ++ "_" ++ fmtYYYYMMDD d ++ ".pdf"

/-- The configured field list, or all keys of the first record
(source lines 248-252). -/
def reportFieldsOf (results : List Record) (cfg : Option ReportConfig) : List String :=
  match cfg.bind ReportConfig.report_fields with
  | some fs => fs
  | none => dictKeys (results.headD [])

/-- `table_fields` (source line 380): the report fields restricted to
actual columns, preserving configured order. -/
def tableFields (results : List Record) (cfg : Option ReportConfig) : List String :=
  (reportFieldsOf results cfg).filter (fun f => (dfColumns results).contains f)

/-- Per-column width `max(100, min(200, 600 // n))` (source line 401);
in the source `n = 0` raises `ZeroDivisionError` there. -/
def colWidthOf (n : Nat) : Nat := max 100 (min 200 (600 / n))

/-- Chart elements for the `group`-operation summary fields present in
the data (source lines 336-373): a `Heading3` label, spacer, the chart
image, spacer — per field; fields absent from the data are skipped. -/
def chartElems (results : List Record) (sfs : List SummaryField) : List Element :=
  ((sfs.filter (fun sf =>
      sf.operation == "group" && (dfColumns results).contains sf.field)).map
    (fun sf =>
      [Element.heading3 sf.label, Element.spacer 6,
       Element.chart sf.field sf.label (valueCounts results sf.field),
       Element.spacer 12])).flatten

/-- The title line and following spacer (source lines 264-265; the
same title line opens the empty-results document, lines 241-242). -/
def titleElems (report_title : String) (d : Date) : List Element :=
  [Element.title (report_title ++ " - " ++ fmtDashed d), Element.spacer 12]

/-- The description paragraph, emitted when `report_config` has a
truthy (non-empty) `description` (source lines 268-270). -/
def descElems (cfg : Option ReportConfig) : List Element :=
  match cfg.bind ReportConfig.description with
  | some t => if t ≠ "" then [Element.para t, Element.spacer 12] else []
  | none => []

/-- The Summary section (source lines 273-373), emitted whenever the
configuration has the `summary_fields` *key* (line 273 tests key
presence, not non-emptiness): the `Summary` heading, then the summary
table if at least one row was produced (line 321), then the group
charts. -/
def summaryElems (results : List Record) (cfg : Option ReportConfig) : List Element :=
  match cfg.bind ReportConfig.summary_fields with
  | some sfs =>
    Element.heading2 "Summary" ::
      ((if (summaryRows results sfs).isEmpty then []
        else [Element.summaryTable (summaryRows results sfs), Element.spacer 24])
        ++ chartElems results sfs)
  | none => []

/-- `table_data` (source lines 383-398): header row of field names,
then one formatted row per record. -/
def tableData (results : List Record) (cfg : Option ReportConfig) : List (List String) :=
  tableFields results cfg ::
    results.map (fun r =>
      (tableFields results cfg).map (fun c => formatCell (iterVal results r c)))

/-- `generate_pdf_report` (source lines 214-432).  `now` supplies
`datetime.now()` for the `execution_date` default (line 228).  Empty
results yield the minimal notice document (lines 235-245).  Otherwise
the elements are: title + spacer; description + spacer when configured
and non-empty (line 268); when the configuration *has* the
`summary_fields` key (line 273) a `Summary` heading followed by the
summary table (if any row was produced) and the group charts; then the
`Detailed Data` heading and the data table.  When no report field is a
column of the data, `600 // len(table_fields)` at line 401 raises
`ZeroDivisionError` (the elements appended before that line are
discarded with the raised exception). -/
def generate_pdf_report (report_title : String) (results : List Record)
    (cfg : Option ReportConfig) (execution_date : Option Date) (now : Date) :
    Except String (String × List Element) :=
  let d := execution_date.getD now
  let pdf_file := pdfPath cfg d
  if results.isEmpty then
    Except.ok (pdf_file,
      titleElems report_title d ++
        [Element.para "No records found for the specified period."])
  else if (tableFields results cfg).isEmpty then Except.error "ZeroDivisionError"
  else
    Except.ok (pdf_file,
      titleElems report_title d ++ descElems cfg ++ summaryElems results cfg
        ++ [Element.heading2 "Detailed Data",
            Element.dataTable (tableData results cfg)
              (colWidthOf (tableFields results cfg).length)])

/-! ### Concrete test inputs

Small concrete servers, result sets and configurations used to
instantiate the theorems below. -/

/-- A server whose page 0 is full (100 records) and page 1 short
(50 records), with `totalCount = 150`. -/
def wServer1 : Nat → PageResponse Nat := fun n =>
  if n = 0 then ⟨200, some (List.range 100), some 150⟩
  else ⟨200, some (List.range 50), some 150⟩

/-- A server always answering a full page of 100 records with no
`totalCount` field. -/
def cServer2 : Nat → PageResponse Nat := fun _ => ⟨200, some (List.range 100), none⟩

def d0 : Date := ⟨2026, 1, 2⟩

/-- One record with only field `a`. -/
def res3 : List Record := [[("a", Value.i 1)]]

/-- A configuration whose sole report field `b` does not occur in
`res3`. -/
def cfg3 : ReportConfig := ⟨none, none, some ["b"], none, none⟩

/-- Two integer amounts large enough for thousands grouping to be
observable. -/
def res4 : List Record := [[("amt", Value.i 1000000)], [("amt", Value.i 2000000)]]

def cfg4 : ReportConfig := ⟨none, none, none, none, some [⟨"amt", "min", "Minimum"⟩]⟩

/-- The spec's summary example data, integer and float variants. -/
def exSumInt : List Record :=
  [[("amt", Value.i 10)], [("amt", Value.i 20)], [("amt", Value.i 30)]]

def exSumFloat : List Record :=
  [[("amt", Value.f 10)], [("amt", Value.f 20)], [("amt", Value.f 30)]]

/-- Second record lacks field `b`. -/
def res5 : List Record := [[("a", Value.i 1), ("b", Value.i 5)], [("a", Value.i 2)]]

/-- String-valued variant: second record lacks field `b`. -/
def res5s : List Record :=
  [[("a", Value.s "x"), ("b", Value.s "y")], [("a", Value.s "z")]]

def res6 : List Record := [[("a", Value.i 1)]]

/-- A configuration whose `summary_fields` key is present but holds the
empty sequence. -/
def cfg6 : ReportConfig := ⟨none, none, none, none, some []⟩

/-- A cached, unexpired credential (expiry instant 100). -/
def store7 : VarStore := ⟨some "tok", some "100", none, none, none⟩

/-- An empty credential cache with the auth endpoint configured. -/
def store8 : VarStore := ⟨none, none, some "http://x", some "id", some "sec"⟩

/-- A cached credential whose expiry string does not parse. -/
def store10 : VarStore := ⟨some "tok", some "notadate", some "http://x", some "id", some "sec"⟩

/-- The element list rendered for `res4` under `cfg4`. -/
def elems4 : List Element :=
  [Element.title "T - 2026-01-02", Element.spacer 12, Element.heading2 "Summary",
   Element.summaryTable [["Minimum", "1000000"]], Element.spacer 24,
   Element.heading2 "Detailed Data",
   Element.dataTable [["amt"], ["1000000"], ["2000000"]] 200]

/-- The element list rendered for `res5s` without configuration. -/
def elems5 : List Element :=
  [Element.title "T - 2026-01-02", Element.spacer 12, Element.heading2 "Detailed Data",
   Element.dataTable [["a", "b"], ["x", "y"], ["z", "nan"]] 200]

/-- The element list rendered for `res6` under `cfg6`. -/
def elems6 : List Element :=
  [Element.title "T - 2026-01-02", Element.spacer 12, Element.heading2 "Summary",
   Element.heading2 "Detailed Data", Element.dataTable [["a"], ["1"]] 200]

/-! ## Theorems -/

/-! ### TokenProvider (claims C7, C8, C10) -/

/-- When the cached credential is absent (either Variable falsy) or its
parsed expiry is not in the future, `get_api_auth_token` takes the
refresh path. -/
theorem get_api_auth_token_refreshes (store : VarStore) (now : Int) (net : AuthNet)
    (hinv : strTruthy store.api_token = false ∨ strTruthy store.api_token_expiry = false ∨
      ∃ ex, fromIso (store.api_token_expiry.getD "") = some ex ∧ ex ≤ now) :
    get_api_auth_token store now net = refreshToken store now net := by
  unfold get_api_auth_token
  rcases hinv with h | h | ⟨ex, hex, hle⟩
  · simp [h]
  · simp [h]
  · by_cases hbt : (strTruthy store.api_token && strTruthy store.api_token_expiry) = true
    · rw [if_pos hbt]
      simp only [hex]
      rw [if_neg (show ¬now < ex by omega)]
    · rw [if_neg hbt]

/-- C7: with a persisted token and expiry, both truthy, whose expiry
parses to an instant strictly after `now`, `get_api_auth_token`
returns the cached token, performs no network call, and leaves the
Variable store unchanged. -/
theorem claim7_cached_token_reuse (store : VarStore) (now : Int) (net : AuthNet)
    (t e : String) (expiry : Int)
    (ht : store.api_token = some t) (ht2 : t ≠ "")
    (he : store.api_token_expiry = some e) (he2 : e ≠ "")
    (hp : fromIso e = some expiry) (hlt : now < expiry) :
    get_api_auth_token store now net = ⟨Except.ok t, store, 0⟩ := by
  unfold get_api_auth_token
  rw [ht, he]
  simp [strTruthy, ht2, he2, hp, hlt]

/-- Witness for C7 at a concrete store, instant and (unused) network. -/
theorem claim7_cached_token_reuse_witness :
    get_api_auth_token store7 50 (Except.error "down") = ⟨Except.ok "tok", store7, 0⟩ :=
  claim7_cached_token_reuse store7 50 (Except.error "down") "tok" "100" 100
    rfl (by decide) rfl (by decide) (by decide) (by decide)

/-- C8: with the credential absent or expired and the endpoint
configuration present, `get_api_auth_token` calls the auth endpoint
exactly once; on a 200 response carrying an `access_token` it persists
the new token with expiry `now + expires_in` (default 3600),
overwriting the cached credential, and returns the token; on a non-200
response it raises the authentication failure, and on a transport
error it re-raises it — in each case after exactly one call, with no
retry. -/
theorem claim8_token_refresh (store : VarStore) (now : Int) (net : AuthNet)
    (b cid cs : String)
    (hb : store.order_api_base_url = some b)
    (hcid : store.api_client_id = some cid)
    (hcs : store.api_client_secret = some cs)
    (hinv : strTruthy store.api_token = false ∨ strTruthy store.api_token_expiry = false ∨
      ∃ ex, fromIso (store.api_token_expiry.getD "") = some ex ∧ ex ≤ now) :
    (get_api_auth_token store now net).calls = 1 ∧
    (∀ resp tok, net = Except.ok resp → resp.status = 200 → resp.access_token = some tok →
      get_api_auth_token store now net =
        ⟨Except.ok tok,
         ⟨some tok, some (toIso (now + resp.expires_in.getD 3600)), some b, some cid, some cs⟩,
         1⟩) ∧
    (∀ resp, net = Except.ok resp → resp.status ≠ 200 →
      get_api_auth_token store now net = ⟨Except.error AuthError.authFailed, store, 1⟩) ∧
    (∀ msg, net = Except.error msg →
      get_api_auth_token store now net = ⟨Except.error (AuthError.transport msg), store, 1⟩) := by
  rw [get_api_auth_token_refreshes store now net hinv]
  unfold refreshToken
  simp only [hb, hcid, hcs]
  refine ⟨?_, ?_, ?_, ?_⟩
  · rcases net with msg | resp
    · rfl
    · by_cases h200 : resp.status = 200
      · rcases ha : resp.access_token with _ | tok <;> simp [h200, ha]
      · simp [h200]
  · rintro resp tok rfl h200 ha
    simp [h200, ha]
  · rintro resp rfl h200
    simp [h200]
  · rintro msg rfl
    rfl

/-- Witness for C8: the three network outcomes at a concrete store and
instant. -/
theorem claim8_token_refresh_witness :
    (get_api_auth_token store8 1000 (Except.ok ⟨200, some "newtok", some 7200⟩) =
      ⟨Except.ok "newtok",
       ⟨some "newtok", some (toIso (1000 + 7200)), some "http://x", some "id", some "sec"⟩, 1⟩) ∧
    (get_api_auth_token store8 1000 (Except.ok ⟨500, none, none⟩) =
      ⟨Except.error AuthError.authFailed, store8, 1⟩) ∧
    (get_api_auth_token store8 1000 (Except.error "conn") =
      ⟨Except.error (AuthError.transport "conn"), store8, 1⟩) := by
  refine ⟨?_, ?_, ?_⟩
  · exact (claim8_token_refresh store8 1000 (Except.ok ⟨200, some "newtok", some 7200⟩)
      "http://x" "id" "sec" rfl rfl rfl (Or.inl rfl)).2.1 _ "newtok" rfl rfl rfl
  · exact (claim8_token_refresh store8 1000 (Except.ok ⟨500, none, none⟩)
      "http://x" "id" "sec" rfl rfl rfl (Or.inl rfl)).2.2.1 _ rfl (by decide)
  · exact (claim8_token_refresh store8 1000 (Except.error "conn")
      "http://x" "id" "sec" rfl rfl rfl (Or.inl rfl)).2.2.2 "conn" rfl

/-- C10: with a truthy cached token and expiry whose expiry string does
not parse, `get_api_auth_token` propagates the parse error raised at
line 29 — outside the `try` block and before the refresh path — so no
network call is made and the store is unchanged. -/
theorem claim10_invalid_expiry_parse_error (store : VarStore) (now : Int) (net : AuthNet)
    (e : String)
    (ht : strTruthy store.api_token = true)
    (he : store.api_token_expiry = some e) (he2 : e ≠ "")
    (hp : fromIso e = none) :
    get_api_auth_token store now net = ⟨Except.error AuthError.parseError, store, 0⟩ := by
  unfold get_api_auth_token
  rw [he]
  rw [if_pos (by rw [ht]; simp [strTruthy, he2])]
  simp [hp]

/-- Witness for C10 at a concrete store with a malformed expiry. -/
theorem claim10_invalid_expiry_parse_error_witness :
    get_api_auth_token store10 50 (Except.error "down") =
      ⟨Except.error AuthError.parseError, store10, 0⟩ :=
  claim10_invalid_expiry_parse_error store10 50 (Except.error "down") "notadate"
    (by decide) rfl (by decide) (by decide)

/-! ### OrderQuery (claims C1, C2) -/

theorem accUpto_succ {α : Type} (server : Nat → PageResponse α) (n : Nat) :
    accUpto server (n + 1) = accUpto server n ++ pageData server n := by
  simp [accUpto, List.range_succ]

/-- The page size of the search payload is always the base template's
100: no configuration override touches `"Size"`. -/
theorem buildSearchPayload_size (from_date to_date : String) (cfg : Option ReportConfig) :
    (buildSearchPayload from_date to_date cfg).size = 100 := by
  unfold buildSearchPayload
  rcases cfg with _ | c
  · rfl
  · dsimp only
    repeat' split
    all_goals rfl

/-- One unfolding of the pagination loop, phrased with `pageData`. -/
theorem queryLoop_succ_eq {α : Type} (server : Nat → PageResponse α) (size fuel page : Nat)
    (acc : List α) (fetched : List Nat) :
    queryLoop server size (fuel + 1) page acc fetched =
      if (server page).status ≠ 200 then some (Except.error "API returned error")
      else if (pageData server page).isEmpty then some (Except.ok (acc, fetched ++ [page]))
      else if (server page).totalCount.getD 0 ≤ (acc ++ pageData server page).length ∨
          (pageData server page).length < size then
        some (Except.ok (acc ++ pageData server page, fetched ++ [page]))
      else queryLoop server size fuel (page + 1) (acc ++ pageData server page)
        (fetched ++ [page]) := rfl

/-- Invariant of the pagination loop: a successful run starting at
`page` with the records and page list accumulated so far ends at the
first page `n ≥ page` satisfying the termination test, having fetched
exactly pages `page .. n` and accumulated exactly the data of pages
`0 .. n`. -/
theorem queryLoop_ok_spec {α : Type} (server : Nat → PageResponse α) :
    ∀ (fuel page : Nat) (res : List α) (fetched : List Nat),
      queryLoop server 100 fuel page (accUpto server page) (List.range page) =
        some (Except.ok (res, fetched)) →
      ∃ n, page ≤ n ∧ fetched = List.range (n + 1) ∧ res = accUpto server (n + 1) ∧
        stopsAt server n = true ∧ ∀ i, page ≤ i → i < n → stopsAt server i = false := by
  intro fuel
  induction fuel with
  | zero =>
    intro page res fetched h
    simp [queryLoop] at h
  | succ fuel ih =>
    intro page res fetched h
    rw [queryLoop_succ_eq] at h
    by_cases hst : (server page).status ≠ 200
    · rw [if_pos hst] at h
      simp at h
    · rw [if_neg hst] at h
      by_cases hde : (pageData server page).isEmpty = true
      · rw [if_pos hde] at h
        simp only [Option.some.injEq, Except.ok.injEq, Prod.mk.injEq] at h
        obtain ⟨hres, hfet⟩ := h
        have hnil : pageData server page = [] := by simpa using hde
        refine ⟨page, le_refl _, hfet.symm.trans (List.range_succ _).symm, ?_, ?_, ?_⟩
        · rw [← hres, accUpto_succ, hnil, List.append_nil]
        · simp [stopsAt, hde]
        · intro i h1 h2
          omega
      · rw [if_neg hde] at h
        by_cases hstop : (server page).totalCount.getD 0 ≤
            (accUpto server page ++ pageData server page).length ∨
            (pageData server page).length < 100
        · rw [if_pos hstop] at h
          simp only [Option.some.injEq, Except.ok.injEq, Prod.mk.injEq] at h
          obtain ⟨hres, hfet⟩ := h
          refine ⟨page, le_refl _, hfet.symm.trans (List.range_succ _).symm, ?_, ?_, ?_⟩
          · rw [← hres, accUpto_succ]
          · simp only [stopsAt, Bool.or_eq_true, decide_eq_true_eq]
            rcases hstop with h1 | h1
            · exact Or.inl (Or.inr (by rw [accUpto_succ]; exact h1))
            · exact Or.inr h1
          · intro i h1 h2
            omega
        · rw [if_neg hstop] at h
          rw [← accUpto_succ, ← List.range_succ] at h
          obtain ⟨n, hn, hfet, hres, hstopn, hprev⟩ := ih (page + 1) res fetched h
          refine ⟨n, by omega, hfet, hres, hstopn, ?_⟩
          intro i h1 h2
          rcases Nat.eq_or_lt_of_le h1 with heq | hlt
          · subst heq
            have hne : (pageData server page).isEmpty = false := Bool.eq_false_iff.mpr hde
            obtain ⟨hs1, hs2⟩ := not_or.mp hstop
            simp only [stopsAt, Bool.or_eq_false_iff, decide_eq_false_iff_not]
            refine ⟨⟨hne, ?_⟩, hs2⟩
            rw [accUpto_succ]
            exact hs1
          · exact hprev i hlt h2

/-- C1: a successful run of `query_order_api` fetches pages `0, 1, …, n`
sequentially (so no page index is fetched twice), where `n` is the
first page satisfying the termination test — absent/empty record list,
accumulated count having reached the page's reported total count, or a
page shorter than the requested page size of 100 — and returns exactly
the records of the fetched pages. -/
theorem claim1_pagination_termination (α : Type) (server : Nat → PageResponse α) (fuel : Nat)
    (from_date to_date : String) (cfg : Option ReportConfig) (res : List α)
    (fetched : List Nat)
    (h : query_order_api server fuel from_date to_date cfg = some (Except.ok (res, fetched))) :
    ∃ n, fetched = List.range (n + 1) ∧ fetched.Nodup ∧ res = accUpto server (n + 1) ∧
      stopsAt server n = true ∧ ∀ i < n, stopsAt server i = false := by
  unfold query_order_api at h
  simp only [buildSearchPayload_size] at h
  obtain ⟨n, _, hfet, hres, hs, hprev⟩ := queryLoop_ok_spec server fuel 0 res fetched h
  refine ⟨n, hfet, ?_, hres, hs, fun i hi => hprev i (Nat.zero_le i) hi⟩
  rw [hfet]
  exact List.nodup_range _

set_option maxRecDepth 8000 in
/-- Witness for C1: a server with a full page 0 and a short page 1
under `totalCount = 150` stops after page 1. -/
theorem claim1_pagination_termination_witness :
    ∃ n, ([0, 1] : List Nat) = List.range (n + 1) ∧ ([0, 1] : List Nat).Nodup ∧
      List.range 100 ++ List.range 50 = accUpto wServer1 (n + 1) ∧
      stopsAt wServer1 n = true ∧ ∀ i < n, stopsAt wServer1 i = false :=
  claim1_pagination_termination Nat wServer1 5 "01 Jan 2026" "02 Jan 2026" none
    (List.range 100 ++ List.range 50) [0, 1] rfl

/-- C2 (amended): when page 0's response lacks `totalCount`, the total
defaults to 0, so the accumulated-count comparison holds right after
the first non-empty page and accumulation stops there — it does not
continue through further full pages. -/
theorem claim2_missing_total_stops_immediately (α : Type) (server : Nat → PageResponse α)
    (fuel : Nat) (from_date to_date : String) (cfg : Option ReportConfig)
    (h200 : (server 0).status = 200) (hnc : (server 0).totalCount = none)
    (hne : pageData server 0 ≠ []) :
    query_order_api server (fuel + 1) from_date to_date cfg =
      some (Except.ok (pageData server 0, [0])) := by
  unfold query_order_api
  simp only [buildSearchPayload_size]
  rw [queryLoop_succ_eq]
  rw [if_neg (by simp [h200])]
  rw [if_neg (by simp [hne])]
  rw [if_pos (Or.inl (by simp [hnc]))]
  simp

/-- Witness for C2's amended statement: a concrete always-full server
without `totalCount` stops after page 0. -/
theorem claim2_missing_total_stops_immediately_witness :
    query_order_api cServer2 10 "01 Jan 2026" "02 Jan 2026" none =
      some (Except.ok (pageData cServer2 0, [0])) :=
  claim2_missing_total_stops_immediately Nat cServer2 9 "01 Jan 2026" "02 Jan 2026" none
    rfl rfl (by decide)

/-- Counterexample to C2 as stated: with `totalCount` absent and page 0
full (100 records), the claim predicts accumulation continues to page
1; the code stops after page 0, fetching only `[0]` — page 1, itself a
well-formed full page, is never requested. -/
theorem claim2_counterexample :
    query_order_api cServer2 10 "01 Jan 2026" "02 Jan 2026" none =
      some (Except.ok (List.range 100, [0])) ∧
    (cServer2 0).totalCount = none ∧ (pageData cServer2 0).length = 100 ∧
    (cServer2 1).status = 200 ∧ (pageData cServer2 1).length = 100 ∧
    (1 : Nat) ∉ ([0] : List Nat) :=
  ⟨rfl, rfl, rfl, rfl, rfl, by decide⟩

/-! ### ReportRenderer (claims C3, C4, C5, C6, C9) -/

/-- A non-empty record list has `isEmpty = false`. -/
theorem isEmpty_false_of_ne_nil {α : Type} {l : List α} (h : l ≠ []) :
    l.isEmpty = false := by
  cases l with
  | nil => exact absurd rfl h
  | cons a t => rfl

theorem ratFloor_intCast (z : Int) : ((z : Rat)).floor = z := by
  rw [Rat.floor_def']
  simp

/-- Half-even rounding is the identity on integers. -/
theorem roundHalfEven_intCast (z : Int) : roundHalfEven ((z : Rat)) = z := by
  unfold roundHalfEven
  rw [ratFloor_intCast]
  norm_num

/-- `f"{v:,.2f}"` of an integer-valued float, in evaluable form. -/
theorem fmtFloat2_intCast (n m : Int) (hm : n * 100 = m) :
    fmtFloat2 ((n : Rat)) =
      (if m < 0 then "-" else "") ++ fmtNatComma (m.natAbs / 100) ++ "." ++
        zeroPad 2 (m.natAbs % 100) := by
  simp only [fmtFloat2]
  rw [show ((n : Rat)) * 100 = ((m : Rat)) by rw [← hm]; push_cast; ring]
  rw [roundHalfEven_intCast]

/-- C9: the output path of `generate_pdf_report` is the deterministic
`/tmp/{report_id}_{YYYYMMDD}.pdf` built from the configured report id
(default `"report"`) and the date component of the supplied
`execution_date`; with `execution_date` given, the current time plays
no role, so rendering twice with the same title, results,
configuration and date produces the identical outcome — in particular
the identical path, the second artifact overwriting the first. -/
theorem claim9_deterministic_output_path (report_title : String) (results : List Record)
    (cfg : Option ReportConfig) (d : Date) (now1 now2 : Date) (p : String)
    (elems : List Element) :
    generate_pdf_report report_title results cfg (some d) now1 =
      generate_pdf_report report_title results cfg (some d) now2 ∧
    (generate_pdf_report report_title results cfg (some d) now1 = Except.ok (p, elems) →
      p = "/tmp/" ++ reportIdOf cfg ++ "_" ++ fmtYYYYMMDD d ++ ".pdf") ∧
    reportIdOf none = "report" ∧
    (∀ c : ReportConfig, c.report_id = none → reportIdOf (some c) = "report") := by
  refine ⟨rfl, ?_, rfl, ?_⟩
  · intro h
    unfold generate_pdf_report at h
    simp only [Option.getD_some] at h
    split at h
    · simp only [Except.ok.injEq, Prod.mk.injEq] at h
      exact h.1.symm
    · split at h
      · simp at h
      · simp only [Except.ok.injEq, Prod.mk.injEq] at h
        exact h.1.symm
  · intro c hc
    simp [reportIdOf, hc]

/-- Witness for C9 at two distinct `now` instants and concrete data. -/
theorem claim9_deterministic_output_path_witness :
    generate_pdf_report "T" res6 none (some d0) ⟨2025, 12, 31⟩ =
      generate_pdf_report "T" res6 none (some d0) ⟨2000, 1, 1⟩ ∧
    "/tmp/report_20260102.pdf" =
      "/tmp/" ++ reportIdOf none ++ "_" ++ fmtYYYYMMDD d0 ++ ".pdf" := by
  have h := claim9_deterministic_output_path "T" res6 none d0 ⟨2025, 12, 31⟩ ⟨2000, 1, 1⟩
    "/tmp/report_20260102.pdf"
    (titleElems "T" d0 ++ descElems none ++ summaryElems res6 none
      ++ [Element.heading2 "Detailed Data",
          Element.dataTable (tableData res6 none) (colWidthOf (tableFields res6 none).length)])
  exact ⟨h.1, h.2.1 rfl⟩

/-- C3 (amended): for a non-empty result set, rendering completes and
returns a path exactly when at least one report field is a column of
the data; individual missing or malformed field values never abort it,
but when *no* configured report field is present the column-width
division `600 // len(table_fields)` raises `ZeroDivisionError`. -/
theorem claim3_render_totality (report_title : String) (results : List Record)
    (cfg : Option ReportConfig) (ed : Option Date) (now : Date)
    (hne : results ≠ []) :
    (∃ p elems, generate_pdf_report report_title results cfg ed now = Except.ok (p, elems)) ↔
      tableFields results cfg ≠ [] := by
  have hie : results.isEmpty = false := isEmpty_false_of_ne_nil hne
  constructor
  · rintro ⟨p, elems, h⟩ htf
    have htfe : (tableFields results cfg).isEmpty = true := by rw [htf]; rfl
    simp [generate_pdf_report, hie, htfe] at h
  · intro htf
    have htfe : (tableFields results cfg).isEmpty = false := isEmpty_false_of_ne_nil htf
    cases hgen : generate_pdf_report report_title results cfg ed now with
    | error e =>
      exfalso
      simp [generate_pdf_report, hie, htfe] at hgen
    | ok pe =>
      obtain ⟨p1, e1⟩ := pe
      exact ⟨p1, e1, rfl⟩

/-- Witness for C3's amended statement at a concrete result set whose
sole configured field is absent from the data. -/
theorem claim3_render_totality_witness :
    (∃ p elems, generate_pdf_report "T" res3 (some cfg3) none d0 = Except.ok (p, elems)) ↔
      tableFields res3 (some cfg3) ≠ [] :=
  claim3_render_totality "T" res3 (some cfg3) none d0 (by decide)

/-- Counterexample to C3 as stated: `res3` is non-empty, yet rendering
with a configuration whose only report field does not occur in the
data raises (`ZeroDivisionError` at the column-width division) instead
of completing. -/
theorem claim3_counterexample :
    generate_pdf_report "T" res3 (some cfg3) none d0 = Except.error "ZeroDivisionError" ∧
    res3 ≠ [] :=
  ⟨rfl, by decide⟩

/-- No chart-section element is the `Summary` heading (charts emit
`Heading3` labels only). -/
theorem summary_heading_not_mem_chartElems (results : List Record) (sfs : List SummaryField) :
    Element.heading2 "Summary" ∉ chartElems results sfs := by
  simp only [chartElems, List.mem_flatten, List.mem_map]
  rintro ⟨l, ⟨sf, hsf, rfl⟩, hmem⟩
  simp at hmem

/-- The description section never contains a heading. -/
theorem heading2_not_mem_descElems (cfg : Option ReportConfig) (s : String) :
    Element.heading2 s ∉ descElems cfg := by
  unfold descElems
  cases cfg.bind ReportConfig.description with
  | none => simp
  | some t =>
    by_cases ht : t ≠ "" <;> simp [ht]

/-- The `Summary` heading occurs in the summary section exactly when
the configuration has the `summary_fields` key. -/
theorem summary_heading_mem_summaryElems (results : List Record) (cfg : Option ReportConfig) :
    Element.heading2 "Summary" ∈ summaryElems results cfg ↔
      (cfg.bind ReportConfig.summary_fields).isSome = true := by
  unfold summaryElems
  cases hsf : cfg.bind ReportConfig.summary_fields with
  | none => simp
  | some sfs => simp

/-- C6 (amended): in a rendered non-empty report the `Summary` heading
appears exactly when the supplied configuration *has* the
`summary_fields` key — including when that key holds the empty
sequence (line 273 tests key presence, not non-emptiness); with no
configuration (or no key) no `Summary` heading is emitted. -/
theorem claim6_summary_heading_iff (report_title : String) (results : List Record)
    (cfg : Option ReportConfig) (ed : Option Date) (now : Date) (p : String)
    (elems : List Element) (hne : results ≠ [])
    (h : generate_pdf_report report_title results cfg ed now = Except.ok (p, elems)) :
    Element.heading2 "Summary" ∈ elems ↔
      (cfg.bind ReportConfig.summary_fields).isSome = true := by
  have hie : results.isEmpty = false := isEmpty_false_of_ne_nil hne
  unfold generate_pdf_report at h
  rw [if_neg (by simp [hie])] at h
  split at h
  · simp at h
  · simp only [Except.ok.injEq, Prod.mk.injEq] at h
    rw [← h.2]
    simp [titleElems, List.mem_append, summary_heading_mem_summaryElems,
      heading2_not_mem_descElems, summary_heading_not_mem_chartElems]

/-- Witness for C6's amended statement at a concrete configuration with
an empty `summary_fields` list. -/
theorem claim6_summary_heading_iff_witness :
    Element.heading2 "Summary" ∈
      titleElems "T" d0 ++ descElems (some cfg6) ++ summaryElems res6 (some cfg6)
        ++ [Element.heading2 "Detailed Data",
            Element.dataTable (tableData res6 (some cfg6))
              (colWidthOf (tableFields res6 (some cfg6)).length)] ↔
      ((some cfg6).bind ReportConfig.summary_fields).isSome = true :=
  claim6_summary_heading_iff "T" res6 (some cfg6) none d0 "/tmp/report_20260102.pdf" _
    (by decide) rfl

/-- Counterexample to C6 as stated: with `summary_fields` present but
*empty*, the claim says no `Summary` heading is emitted, yet the
rendered document contains one. -/
theorem claim6_counterexample :
    generate_pdf_report "T" res6 (some cfg6) none d0 =
      Except.ok ("/tmp/report_20260102.pdf", elems6) ∧
    cfg6.summary_fields = some [] ∧
    Element.heading2 "Summary" ∈ elems6 :=
  ⟨rfl, rfl, by decide⟩

/-- C5 (amended): the rendered Detailed Data table is the header row of
table fields followed by one row per record, each cell produced by
`formatCell` on the row value `iterrows` yields; a cell whose record
lacks the field renders as `"nan"` (the pandas `NaN` fill, a float,
prints through `f"{value:,.2f}"`), not as the empty string; strings
render as themselves; float values render with thousands separators
and two decimals; integer values render with separators and two
decimals when any column is `float64` (row promoted to float), as
plain unseparated digits when every column is `int64`
(`numpy.int64` fails the `isinstance` test), and with separators when
some column is `object` (numbers boxed back to native `int`). -/
theorem claim5_detail_cell_rendering :
    (∀ (report_title : String) (results : List Record) (cfg : Option ReportConfig)
        (ed : Option Date) (now : Date) (p : String) (elems : List Element),
      results ≠ [] →
      generate_pdf_report report_title results cfg ed now = Except.ok (p, elems) →
      Element.dataTable (tableData results cfg)
        (colWidthOf (tableFields results cfg).length) ∈ elems) ∧
    (∀ (results : List Record) (r : Record) (c : String),
      dictLookup r c = none → formatCell (iterVal results r c) = "nan") ∧
    (∀ (results : List Record) (r : Record) (c t : String),
      dictLookup r c = some (Value.s t) → formatCell (iterVal results r c) = t) ∧
    (∀ (results : List Record) (r : Record) (c : String) (q : Rat),
      dictLookup r c = some (Value.f q) → formatCell (iterVal results r c) = fmtFloat2 q) ∧
    (∀ (results : List Record) (r : Record) (c : String) (n : Int),
      dictLookup r c = some (Value.i n) → dfRowDtype results = Dtype.int64 →
      formatCell (iterVal results r c) = toString n) ∧
    (∀ (results : List Record) (r : Record) (c : String) (n : Int),
      dictLookup r c = some (Value.i n) → dfRowDtype results = Dtype.float64 →
      formatCell (iterVal results r c) = fmtFloat2 (n : Rat)) ∧
    (∀ (results : List Record) (r : Record) (c : String) (n : Int),
      dictLookup r c = some (Value.i n) → dfRowDtype results = Dtype.obj →
      formatCell (iterVal results r c) = fmtIntComma n) := by
  refine ⟨?_, ?_, ?_, ?_, ?_, ?_, ?_⟩
  · intro report_title results cfg ed now p elems hne h
    have hie : results.isEmpty = false := isEmpty_false_of_ne_nil hne
    unfold generate_pdf_report at h
    rw [if_neg (by simp [hie])] at h
    split at h
    · simp at h
    · simp only [Except.ok.injEq, Prod.mk.injEq] at h
      rw [← h.2]
      simp [List.mem_append]
  · intro results r c h
    simp [iterVal, h, formatCell]
  · intro results r c t h
    cases hdt : dfRowDtype results <;> simp [iterVal, h, hdt, formatCell]
  · intro results r c q h
    cases hdt : dfRowDtype results <;> simp [iterVal, h, hdt, formatCell]
  · intro results r c n h hdt
    simp [iterVal, h, hdt, formatCell]
  · intro results r c n h hdt
    simp [iterVal, h, hdt, formatCell]
  · intro results r c n h hdt
    simp [iterVal, h, hdt, formatCell]

/-- Witness for C5's amended statement: the table element of the
`res5s` document, a concrete missing-value cell rendering `"nan"`, and
the float-promotion of an integer cell of `res5` (whose column `b` has
a missing value). -/
theorem claim5_detail_cell_rendering_witness :
    Element.dataTable (tableData res5s none) (colWidthOf (tableFields res5s none).length)
      ∈ elems5 ∧
    formatCell (iterVal res5 [("a", Value.i 2)] "b") = "nan" ∧
    formatCell (iterVal res5 [("a", Value.i 1), ("b", Value.i 5)] "a") =
      fmtFloat2 ((1 : Int) : Rat) :=
  ⟨claim5_detail_cell_rendering.1 "T" res5s none none d0 "/tmp/report_20260102.pdf" elems5
      (by decide) rfl,
   claim5_detail_cell_rendering.2.1 res5 [("a", Value.i 2)] "b" rfl,
   claim5_detail_cell_rendering.2.2.2.2.2.1 res5 [("a", Value.i 1), ("b", Value.i 5)] "a" 1
     rfl rfl⟩

/-- Counterexample to C5 as stated: record 1 of `res5s` lacks field
`b`, and the rendered cell is `"nan"`, not the empty string. -/
theorem claim5_counterexample :
    generate_pdf_report "T" res5s none none d0 =
      Except.ok ("/tmp/report_20260102.pdf", elems5) ∧
    dictLookup (res5s.getD 1 []) "b" = none ∧
    Element.dataTable [["a", "b"], ["x", "y"], ["z", "nan"]] 200 ∈ elems5 ∧
    "nan" ≠ "" :=
  ⟨rfl, rfl, by decide, by decide⟩

/-- C4 (amended): summary values are rendered per source lines 288-307:
`sum` over an `int64` column yields `numpy.int64`, which fails
`isinstance(value, (int, float))` and renders as plain `str` digits
without separators; `sum` over a `float64` column renders
`f"{value:,.2f}"`; `avg` always renders `f"{value:,.2f}"`; `count`
renders `len(df)` as `f"{value:,}"` with separators; `min` and `max`
render as plain `str(value)` with no separator formatting.  The
produced rows appear as the rendered summary table.  On the spec's
example data, `sum` renders `"60"` for integer amounts and `"60.00"`
for float amounts. -/
theorem claim4_summary_value_formatting :
    (∀ (results : List Record) (field : String), colDtype results field = Dtype.int64 →
      summaryValueStr results field "sum" = some (toString (colSumInt results field)) ∧
      summaryValueStr results field "min" = (colMinInt results field).map toString ∧
      summaryValueStr results field "max" = (colMaxInt results field).map toString) ∧
    (∀ (results : List Record) (field : String), colDtype results field = Dtype.float64 →
      summaryValueStr results field "sum" = some (fmtFloat2 (colSumRat results field)) ∧
      summaryValueStr results field "avg" = (colMeanRat results field).map fmtFloat2 ∧
      summaryValueStr results field "min" = (colMinRat results field).map pyFloatStr ∧
      summaryValueStr results field "max" = (colMaxRat results field).map pyFloatStr) ∧
    (∀ (results : List Record) (field : String),
      summaryValueStr results field "count" = some (fmtNatComma results.length)) ∧
    (∀ (report_title : String) (results : List Record) (cfg : Option ReportConfig)
        (ed : Option Date) (now : Date) (p : String) (elems : List Element)
        (sfs : List SummaryField),
      results ≠ [] → cfg.bind ReportConfig.summary_fields = some sfs →
      summaryRows results sfs ≠ [] →
      generate_pdf_report report_title results cfg ed now = Except.ok (p, elems) →
      Element.summaryTable (summaryRows results sfs) ∈ elems) ∧
    summaryValueStr exSumInt "amt" "sum" = some "60" ∧
    summaryValueStr exSumFloat "amt" "sum" = some "60.00" ∧
    summaryValueStr exSumInt "amt" "avg" = some "20.00" := by
  refine ⟨?_, ?_, ?_, ?_, rfl, ?_, ?_⟩
  · intro results field hdt
    refine ⟨?_, ?_, ?_⟩ <;> simp [summaryValueStr, hdt]
  · intro results field hdt
    refine ⟨?_, ?_, ?_, ?_⟩ <;> simp [summaryValueStr, hdt]
  · intro results field
    simp [summaryValueStr]
  · intro report_title results cfg ed now p elems sfs hne hsf hrows h
    have hie : results.isEmpty = false := isEmpty_false_of_ne_nil hne
    unfold generate_pdf_report at h
    rw [if_neg (by simp [hie])] at h
    split at h
    · simp at h
    · simp only [Except.ok.injEq, Prod.mk.injEq] at h
      rw [← h.2]
      have hre : (summaryRows results sfs).isEmpty = false := isEmpty_false_of_ne_nil hrows
      simp [List.mem_append, summaryElems, hsf, hre]
  · have hdt : colDtype exSumFloat "amt" = Dtype.float64 := by decide
    have hs : colSumRat exSumFloat "amt" = ((60 : Int) : Rat) := by
      simp [colSumRat, colRats, colPresent, exSumFloat, dictLookup, valRat]
      norm_num
    simp only [summaryValueStr, hdt]
    rw [hs, fmtFloat2_intCast 60 6000 (by norm_num)]
    rfl
  · have hdt : colDtype exSumInt "amt" = Dtype.int64 := by decide
    have hm : colMeanRat exSumInt "amt" = some ((20 : Int) : Rat) := by
      simp [colMeanRat, colRats, colSumRat, colPresent, exSumInt, dictLookup, valRat]
      norm_num
    simp only [summaryValueStr, hdt]
    rw [hm]
    simp only [Option.map_some']
    rw [fmtFloat2_intCast 20 2000 (by norm_num)]
    rfl

/-- Witness for C4's amended statement at concrete columns and a
concrete rendered document. -/
theorem claim4_summary_value_formatting_witness :
    summaryValueStr res4 "amt" "min" = (colMinInt res4 "amt").map toString ∧
    summaryValueStr res4 "amt" "sum" = some (toString (colSumInt res4 "amt")) ∧
    summaryValueStr exSumFloat "amt" "avg" = (colMeanRat exSumFloat "amt").map fmtFloat2 ∧
    Element.summaryTable (summaryRows res4 [⟨"amt", "min", "Minimum"⟩]) ∈ elems4 :=
  ⟨(claim4_summary_value_formatting.1 res4 "amt" rfl).2.1,
   (claim4_summary_value_formatting.1 res4 "amt" rfl).1,
   (claim4_summary_value_formatting.2.1 exSumFloat "amt" rfl).2.1,
   claim4_summary_value_formatting.2.2.2.1 "T" res4 (some cfg4) none d0
     "/tmp/report_20260102.pdf" elems4 [⟨"amt", "min", "Minimum"⟩]
     (by decide) rfl (by decide) rfl⟩

/-- Counterexample to C4 as stated: the `min` of the two million-scale
integer amounts renders as `"1000000"` — plain `str` digits — not as
the thousands-separated `"1,000,000"` the claim requires. -/
theorem claim4_counterexample :
    generate_pdf_report "T" res4 (some cfg4) none d0 =
      Except.ok ("/tmp/report_20260102.pdf", elems4) ∧
    Element.summaryTable [["Minimum", "1000000"]] ∈ elems4 ∧
    "1000000" ≠ "1,000,000" :=
  ⟨rfl, by decide, by decide⟩

end ReportUtils
